import Mathlib

/-!
Verification of the authentication core of the repository
(`src/apps/api/v1/controllers/auth.py`, `src/apps/core/config.py`).

The login controller and the settings module are embedded from the source.
The collaborators the controller calls (`service.user_authenticate`,
`Security.create_access_token`/`create_refresh_token`, the exception-to-HTTP
mapping, the `REFRESH` cookie-name constant from `core.constants`) are not in
the repository snapshot; they are modelled from the specification (sections
4.2, 4.3, 6 and 7) and each such definition says so in its doc comment.

Times are integer seconds; Python ints are `Int`; Python floats in the HTTP
client settings are `Rat`; environment-variable overrides are a record of
`Option` fields (string parsing by pydantic is outside the embedding).
-/

deriving instance DecidableEq for Except

/-- Token kind claim: access or refresh (spec section 3, `kind: Access|Refresh`). -/
inductive TokenKind where
  | access
  | refresh
deriving DecidableEq, Repr

/-- Claims of a token: `{sub, kind, iat, exp}` (spec section 4.2). -/
structure Claims where
  sub : String
  kind : TokenKind
  iat : Int
  exp : Int
deriving DecidableEq, Repr

/-- Modelled from the spec: the Key Material Provider's asymmetric key pair
(section 4.1), abstracted to one identifier; the public half verifies exactly
what the private half signed. -/
structure KeyPair where
  key : Nat
deriving DecidableEq, Repr

/-- Modelled from the spec: signing binds the key and the exact claims
(section 4.2, "signs with the private key"). -/
def sign (key : Nat) (c : Claims) : Nat × Claims :=
  (key, c)

/-- A signed, self-contained token: claims plus signature (spec section 3). -/
structure SignedToken where
  claims : Claims
  sig : Nat × Claims
deriving DecidableEq, Repr

/-- Modelled from the spec: `mint(subject, kind, ttl)` builds
`{sub=subject, kind, iat=now, exp=now+ttl}` and signs it (section 4.2). -/
def mint (kp : KeyPair) (subject : String) (kind : TokenKind) (ttl : Int) (now : Int) :
    SignedToken :=
  let c : Claims := { sub := subject, kind := kind, iat := now, exp := now + ttl }
  { claims := c, sig := sign kp.key c }

/-- The three distinct verification error kinds (spec section 4.2). -/
inductive VerifyError where
  | tokenInvalid
  | tokenExpired
  | tokenKindMismatch
deriving DecidableEq, Repr

/-- Modelled from the spec: `verify(token, expected_kind)` checks, in order,
the signature against the public key, `exp > now` (failing with
`TokenExpiredError` when `exp ≤ now`), and `kind == expected_kind`
(section 4.2). -/
def verify (kp : KeyPair) (t : SignedToken) (expectedKind : TokenKind) (now : Int) :
    Except VerifyError String :=
  if t.sig ≠ sign kp.key t.claims then .error .tokenInvalid
  else if t.claims.exp ≤ now then .error .tokenExpired
  else if t.claims.kind ≠ expectedKind then .error .tokenKindMismatch
  else .ok t.claims.sub

/-- Render a token kind for the wire encoding. -/
def TokenKind.render : TokenKind → String
  | .access => "access"
  | .refresh => "refresh"

/-- Modelled from the spec: serialization of a signed token as a string
(section 3, "serialized as a signed, self-contained structure"); only the
non-emptiness and well-formedness of the rendering matter to the claims. -/
def encodeToken (t : SignedToken) : String :=
  "jwt." ++ t.claims.sub ++ "." ++ t.claims.kind.render ++ "." ++
    toString t.claims.iat ++ "." ++ toString t.claims.exp

/-- A stored user record (spec section 3, `UserRecord`). -/
structure UserRecord where
  id : Nat
  username : String
  email : String
  password_hash : String
deriving DecidableEq, Repr

/-- Modelled from the spec: the salted password hash of a secret
(`PasswordHasher`, sections 4.3 and 6), abstracted to a tagged copy. -/
def hashPassword (secret : String) : String :=
  "hashed." ++ secret

/-- Modelled from the spec: `PasswordHasher.verify(secret, hash) -> bool`
(section 6). -/
def verifyPassword (secret : String) (hash : String) : Bool :=
  hash == hashPassword secret

/-- Modelled from the spec: `UserStore.find_by_username_or_email` — the
identifier is classified by the presence of `@` and resolved against the
email or the username field accordingly (sections 4.3 and 6). -/
def find_by_username_or_email (store : List UserRecord) (identifier : String) :
    Option UserRecord :=
  if identifier.data.contains '@' then
    store.find? (fun u => u.email == identifier)
  else
    store.find? (fun u => u.username == identifier)

/-- The two internal authentication error kinds (spec section 4.3). -/
inductive AuthError where
  | userNotFound
  | invalidCredentials
deriving DecidableEq, Repr

/-- Modelled from the spec: `service.user_authenticate` resolves the
identifier through the user store, then compares the secret against the
stored password hash (section 4.3); the controller reads `user.id` from the
returned record. -/
def user_authenticate (store : List UserRecord) (identifier : String) (secret : String) :
    Except AuthError UserRecord :=
  match find_by_username_or_email store identifier with
  | none => .error .userNotFound
  | some u =>
      if verifyPassword secret u.password_hash then .ok u
      else .error .invalidCredentials

/-- An externally visible error: status code and message. -/
structure ErrorResponse where
  status : Nat
  message : String
deriving DecidableEq, Repr

/-- The uniform message surfaced for any failed authentication. -/
def invalidCredsMessage : String :=
  "Invalid credentials"

/-- Modelled from the spec: both `UserNotFoundError` and
`InvalidCredentialsError` are merged into one externally visible
401 with a uniform message (section 7). -/
def surfaceAuthError : AuthError → ErrorResponse :=
  fun _ => { status := 401, message := invalidCredsMessage }

/-- A DSN, embedding `sqlalchemy.URL` as built by `URL.create` in
`config.py`. -/
structure URL where
  drivername : String
  username : String
  password : String
  host : String
  port : Int
  database : String
deriving DecidableEq, Repr

/-- `DatabaseSettings.__build_db_dsn` from `config.py`: the driver name is
`postgresql`, with `+asyncpg` appended for the asynchronous DSN. -/
def build_db_dsn (username password host : String) (port : Int) (database : String)
    (async_dsn : Bool) : URL :=
  let driver_name := if async_dsn then "postgresql+asyncpg" else "postgresql"
  { drivername := driver_name, username := username, password := password,
    host := host, port := port, database := database }

/-- The environment-variable overrides the settings classes read, one
`Option` field per alias in `config.py`; `none` means the variable is unset
and the field default applies. -/
structure Env where
  max_connections : Option Int := none
  max_keepalive_connections : Option Int := none
  keepalive_expiry : Option Rat := none
  timeout : Option Rat := none
  token_url : Option String := none
  private_key_path : Option String := none
  public_key_path : Option String := none
  algorithm : Option String := none
  access_token_expire_minutes : Option Int := none
  refresh_token_expire_minutes : Option Int := none
  doctor_username : Option String := none
  doctor_email : Option String := none
  doctor_password : Option String := none
  pg_host : Option String := none
  pg_user : Option String := none
  pg_password : Option String := none
  pg_database : Option String := none
  pg_port : Option Int := none
  pg_test_database : Option String := none
  pytest_debug : Option Bool := none
  client_id : Option String := none
  client_secret : Option String := none
  port : Option Int := none
  host : Option String := none
  page_size : Option Int := none
  max_page_size : Option Int := none
  openapi_url : Option String := none
deriving DecidableEq, Repr

/-- `HttpxSettings` from `config.py`. -/
structure HttpxSettings where
  max_connections : Int
  max_keepalive_connections : Int
  keepalive_expiry : Rat
  timeout : Rat
deriving DecidableEq, Repr

/-- Construction of `HttpxSettings` with the defaults of `config.py`. -/
def HttpxSettings.ofEnv (e : Env) : HttpxSettings where
  max_connections := e.max_connections.getD 500
  max_keepalive_connections := e.max_keepalive_connections.getD 50
  keepalive_expiry := e.keepalive_expiry.getD 30
  timeout := e.timeout.getD 20

/-- `AuthSettings` from `config.py`. -/
structure AuthSettings where
  token_url : String
  private_key_path : String
  public_key_path : String
  algorithm : String
  access_token_expire_minutes : Int
  refresh_token_expire_minutes : Int
  doctor_username : String
  doctor_email : String
  doctor_password : String
deriving DecidableEq, Repr

/-- Construction of `AuthSettings` with the defaults of `config.py`. -/
def AuthSettings.ofEnv (e : Env) : AuthSettings where
  token_url := e.token_url.getD "http://localhost:8000/api/v1/auth/login"
  private_key_path := e.private_key_path.getD "src/apps/certs/jwt-private.pem"
  public_key_path := e.public_key_path.getD "src/apps/certs/jwt-public.pem"
  algorithm := e.algorithm.getD "RS256"
  access_token_expire_minutes := e.access_token_expire_minutes.getD 60
  refresh_token_expire_minutes := e.refresh_token_expire_minutes.getD 10000
  doctor_username := e.doctor_username.getD "doctor"
  doctor_email := e.doctor_email.getD "doctor@example.com"
  doctor_password := e.doctor_password.getD "securepassword"

/-- `DatabaseSettings` from `config.py`, after its model validators ran. -/
structure DatabaseSettings where
  pg_host : String
  pg_user : String
  pg_password : String
  pg_database : String
  pg_port : Int
  pg_test_database : String
  pytest_debug : Bool
  async_database_url : Option URL
  sync_database_url : Option URL
deriving DecidableEq, Repr

/-- Construction of `DatabaseSettings` from `config.py`: the fields get their
defaults or overrides, then `validate_async_database_url` builds the
asynchronous DSN against the test database when `pytest_debug` is set and the
production database otherwise, and `validate_sync_database_url` builds the
synchronous DSN always against the production database. -/
def DatabaseSettings.ofEnv (e : Env) : DatabaseSettings :=
  let base : DatabaseSettings :=
    { pg_host := e.pg_host.getD "localhost"
      pg_user := e.pg_user.getD "postgres"
      pg_password := e.pg_password.getD "postgres"
      pg_database := e.pg_database.getD "postgres"
      pg_port := e.pg_port.getD 5432
      pg_test_database := e.pg_test_database.getD "doctor_test"
      pytest_debug := e.pytest_debug.getD false
      async_database_url := none
      sync_database_url := none }
  let db_name := if base.pytest_debug then base.pg_test_database else base.pg_database
  let withAsync :=
    { base with
      async_database_url :=
        some (build_db_dsn base.pg_user base.pg_password base.pg_host base.pg_port
          db_name true) }
  { withAsync with
    sync_database_url :=
      some (build_db_dsn withAsync.pg_user withAsync.pg_password withAsync.pg_host
        withAsync.pg_port withAsync.pg_database false) }

/-- `Settings` from `config.py`. -/
structure Settings where
  db : DatabaseSettings
  auth : AuthSettings
  client : HttpxSettings
  client_id : String
  client_secret : String
  port : Int
  host : String
  default_page_size : Int
  max_page_size : Int
  openapi_url : String
deriving DecidableEq, Repr

/-- Construction of `Settings` with the defaults of `config.py`. -/
def Settings.ofEnv (e : Env) : Settings where
  db := DatabaseSettings.ofEnv e
  auth := AuthSettings.ofEnv e
  client := HttpxSettings.ofEnv e
  client_id := e.client_id.getD "fastapi"
  client_secret := e.client_secret.getD "fastapi_secret"
  port := e.port.getD 8000
  host := e.host.getD "localhost"
  default_page_size := e.page_size.getD 30
  max_page_size := e.max_page_size.getD 30
  openapi_url := e.openapi_url.getD "/docs"

/-- The process-wide state behind `functools.lru_cache` on `get_settings`:
either no settings were constructed yet, or the cached value. -/
structure ProcessState where
  settings_cache : Option Settings
deriving DecidableEq, Repr

/-- `get_settings` from `config.py`: returns the cached settings when
present, otherwise constructs `Settings()` once and caches it. -/
def get_settings (env : Env) (st : ProcessState) : Settings × ProcessState :=
  match st.settings_cache with
  | some s => (s, st)
  | none =>
      let s := Settings.ofEnv env
      (s, { settings_cache := some s })

/-- The results and states of successive `get_settings` calls in one process,
starting from the empty cache: entry `n` is the n-th call. -/
def get_settings_calls (env : Env) : Nat → Settings × ProcessState
  | 0 => get_settings env { settings_cache := none }
  | n + 1 => get_settings env (get_settings_calls env n).2

/-- Modelled from the spec: the `REFRESH` cookie-name constant imported from
`core.constants`, which is not in the snapshot; the claims depend only on it
being the refresh-cookie key. -/
def REFRESH : String :=
  "refresh_token"

/-- `LoginRequestSchema`: the login body `{credentials, password}`. -/
structure LoginRequestSchema where
  credentials : String
  password : String
deriving DecidableEq, Repr

/-- `TokenInfoSchema`: the success body `{access_token}`. -/
structure TokenInfoSchema where
  access_token : String
deriving DecidableEq, Repr

/-- A cookie as set by `response.set_cookie` in the controller. -/
structure Cookie where
  key : String
  value : String
  httponly : Bool
  secure : Bool
deriving DecidableEq, Repr

/-- Modelled from the spec: `Security.create_access_token` mints an access
token for the subject with the configured access TTL (sections 4.2 and 6;
TTL minutes converted to seconds). -/
def Security.create_access_token (kp : KeyPair) (a : AuthSettings) (now : Int)
    (subject : String) : SignedToken :=
  mint kp subject .access (a.access_token_expire_minutes * 60) now

/-- Modelled from the spec: `Security.create_refresh_token` mints a refresh
token for the subject with the configured refresh TTL (sections 4.2 and 6). -/
def Security.create_refresh_token (kp : KeyPair) (a : AuthSettings) (now : Int)
    (subject : String) : SignedToken :=
  mint kp subject .refresh (a.refresh_token_expire_minutes * 60) now

/-- The `login` controller from `auth.py`: authenticate (propagating any
authentication error), mint the access and the refresh token for
`str(user.id)`, set one cookie `(key=REFRESH, httponly=True, secure=False)`
holding the refresh token, and return `TokenInfoSchema(access_token=...)`. -/
def login (store : List UserRecord) (kp : KeyPair) (s : Settings) (now : Int)
    (body : LoginRequestSchema) : Except AuthError (TokenInfoSchema × List Cookie) := do
  let user ← user_authenticate store body.credentials body.password
  let access_token := Security.create_access_token kp s.auth now (toString user.id)
  let refresh_token := Security.create_refresh_token kp s.auth now (toString user.id)
  pure ({ access_token := encodeToken access_token },
    [{ key := REFRESH, value := encodeToken refresh_token, httponly := true,
       secure := false }])

/-- An HTTP response of the login endpoint as observed by the caller. -/
structure HttpResponse where
  status : Nat
  access_token : Option String
  error_message : Option String
  cookies : List Cookie
deriving DecidableEq, Repr

/-- The login endpoint: the controller result on success, and — modelled from
the spec (sections 6 and 7) — the framework's mapping of an authentication
error to a 401 with the uniform message, no body token and no cookie. -/
def loginEndpoint (store : List UserRecord) (kp : KeyPair) (s : Settings) (now : Int)
    (body : LoginRequestSchema) : HttpResponse :=
  match login store kp s now body with
  | .ok (info, cookies) =>
      { status := 200, access_token := some info.access_token,
        error_message := none, cookies := cookies }
  | .error e =>
      let err := surfaceAuthError e
      { status := err.status, access_token := none,
        error_message := some err.message, cookies := [] }

/-- The environment with no overrides: every settings field takes its
default. -/
def emptyEnv : Env := {}

/-- The settings built with no overrides. -/
def defaultSettings : Settings :=
  Settings.ofEnv emptyEnv

/-- A concrete key pair for witnesses. -/
def kp0 : KeyPair := { key := 0 }

/-- The seeded user of the spec's login scenario (section 8). -/
def doctorUser : UserRecord :=
  { id := 1, username := "doctor", email := "doctor@example.com",
    password_hash := hashPassword "securepassword" }

/-- A user store holding only the seeded user. -/
def seedStore : List UserRecord := [doctorUser]

/-- The spec scenario's login body. -/
def seedBody : LoginRequestSchema :=
  { credentials := "doctor@example.com", password := "securepassword" }

/-- The login body of the wrong-password scenario (spec section 8). -/
def wrongBody : LoginRequestSchema :=
  { credentials := "doctor@example.com", password := "wrongpassword" }

/-- The environment override turning on `pytest_debug`. -/
def pytestEnv : Env :=
  { pytest_debug := some true }

/-- The refresh cookie the seeded login scenario sets. -/
def seedRefreshCookie : Cookie :=
  { key := REFRESH,
    value := encodeToken
      (Security.create_refresh_token kp0 defaultSettings.auth 0 (toString doctorUser.id)),
    httponly := true, secure := false }

/-- Every encoded token is a non-empty string. -/
theorem encodeToken_length_pos (t : SignedToken) : 0 < (encodeToken t).length := by
  have h4 : 0 < "jwt.".length := by decide
  simp [encodeToken, String.length_append]
  omega

/-- Every cookie the login endpoint sets has `secure = false`: the source
hard-codes `secure=False` in `response.set_cookie`, independently of the
settings. -/
theorem login_cookie_secure_false (store : List UserRecord) (kp : KeyPair) (s : Settings)
    (now : Int) (body : LoginRequestSchema) (c : Cookie)
    (hc : c ∈ (loginEndpoint store kp s now body).cookies) : c.secure = false := by
  cases ha : user_authenticate store body.credentials body.password with
  | error e =>
      have hl : login store kp s now body = .error e := by
        simp [login, ha]
      simp [loginEndpoint, hl] at hc
  | ok u =>
      have hl : login store kp s now body = .ok
          ({ access_token :=
              encodeToken (Security.create_access_token kp s.auth now (toString u.id)) },
            [{ key := REFRESH,
               value :=
                 encodeToken (Security.create_refresh_token kp s.auth now (toString u.id)),
               httponly := true, secure := false }]) := by
        simp [login, ha]
      simp [loginEndpoint, hl] at hc
      simp [hc]

/-- C5: for every subject, kind and positive ttl, verifying a freshly minted
token with the matching expected kind, at any time from mint up to (strictly
before) expiry, returns the subject. -/
theorem C5_mint_verify_roundtrip (kp : KeyPair) (subject : String) (kind : TokenKind)
    (ttl now t : Int) (_hpos : 0 < ttl) (_hlo : now ≤ t) (hhi : t < now + ttl) :
    verify kp (mint kp subject kind ttl now) kind t = .ok subject := by
  have hexp : ¬ (now + ttl ≤ t) := by omega
  simp [verify, mint, sign, hexp]

/-- Witness for C5 at subject `"1"`, kind access, ttl 3600, minted at 0 and
verified at 10. -/
theorem C5_mint_verify_roundtrip_witness :
    (0 : Int) < 3600 ∧ (0 : Int) ≤ 10 ∧ (10 : Int) < 0 + 3600 ∧
      verify kp0 (mint kp0 "1" TokenKind.access 3600 0) TokenKind.access 10 =
        Except.ok "1" :=
  ⟨by decide, by decide, by decide,
    C5_mint_verify_roundtrip kp0 "1" TokenKind.access 3600 0 10 (by decide) (by decide)
      (by decide)⟩

/-- C6 counterexample: the claim quantifies over every ttl, but at
ttl = -60 the refresh token is already expired when presented, and `verify`
checks expiry before the kind, so the failure is `TokenExpiredError`, not
`TokenKindMismatchError`. -/
theorem C6_kind_mismatch_counterexample :
    verify kp0 (mint kp0 "1" TokenKind.refresh (-60) 0) TokenKind.access 0 =
        Except.error VerifyError.tokenExpired ∧
      VerifyError.tokenExpired ≠ VerifyError.tokenKindMismatch := by
  constructor
  · rfl
  · decide

/-- C6 amended: for every subject and ttl, a token minted with kind refresh
and presented to `verify` with expected kind access before its expiry fails
specifically with `TokenKindMismatchError`. -/
theorem C6_kind_mismatch_amended (kp : KeyPair) (subject : String) (ttl now t : Int)
    (hhi : t < now + ttl) :
    verify kp (mint kp subject TokenKind.refresh ttl now) TokenKind.access t =
      Except.error VerifyError.tokenKindMismatch := by
  have hexp : ¬ (now + ttl ≤ t) := by omega
  simp [verify, mint, sign, hexp]

/-- Witness for the amended C6 at subject `"1"`, ttl 60, verified at mint
time. -/
theorem C6_kind_mismatch_amended_witness :
    (0 : Int) < 0 + 60 ∧
      verify kp0 (mint kp0 "1" TokenKind.refresh 60 0) TokenKind.access 0 =
        Except.error VerifyError.tokenKindMismatch :=
  ⟨by decide, C6_kind_mismatch_amended kp0 "1" 60 0 0 (by decide)⟩

/-- C7: for every subject and kind, verifying a token whose expiry is at or
before the verification time fails with `TokenExpiredError`, which is a
constructor distinct from `TokenInvalidError` and `TokenKindMismatchError`. -/
theorem C7_expired_token (kp : KeyPair) (subject : String) (kind : TokenKind)
    (ttl now t : Int) (hexp : now + ttl ≤ t) :
    verify kp (mint kp subject kind ttl now) kind t =
        Except.error VerifyError.tokenExpired ∧
      VerifyError.tokenExpired ≠ VerifyError.tokenInvalid ∧
      VerifyError.tokenExpired ≠ VerifyError.tokenKindMismatch := by
  refine ⟨?_, by decide, by decide⟩
  simp [verify, mint, sign, hexp]

/-- Witness for C7 at subject `"1"`, kind access, ttl -1, minted and verified
at time 0. -/
theorem C7_expired_token_witness :
    (0 : Int) + (-1) ≤ 0 ∧
      verify kp0 (mint kp0 "1" TokenKind.access (-1) 0) TokenKind.access 0 =
          Except.error VerifyError.tokenExpired ∧
        VerifyError.tokenExpired ≠ VerifyError.tokenInvalid ∧
        VerifyError.tokenExpired ≠ VerifyError.tokenKindMismatch :=
  ⟨by decide, C7_expired_token kp0 "1" TokenKind.access (-1) 0 0 (by decide)⟩

/-- C1: whenever the credentials match a stored user, the login endpoint
returns 200, its body carries the (non-empty) encoded access token minted for
that user's id, and it sets exactly one cookie — the refresh cookie — with
the HttpOnly attribute set. -/
theorem C1_login_success (store : List UserRecord) (kp : KeyPair) (s : Settings)
    (now : Int) (body : LoginRequestSchema) (u : UserRecord)
    (h : user_authenticate store body.credentials body.password = Except.ok u) :
    (loginEndpoint store kp s now body).status = 200 ∧
      (loginEndpoint store kp s now body).access_token =
        some (encodeToken (Security.create_access_token kp s.auth now (toString u.id))) ∧
      (∀ a, (loginEndpoint store kp s now body).access_token = some a → 0 < a.length) ∧
      (loginEndpoint store kp s now body).cookies.length = 1 ∧
      (∀ c ∈ (loginEndpoint store kp s now body).cookies,
        c.key = REFRESH ∧ c.httponly = true) := by
  have hl : login store kp s now body = .ok
      ({ access_token :=
          encodeToken (Security.create_access_token kp s.auth now (toString u.id)) },
        [{ key := REFRESH,
           value := encodeToken (Security.create_refresh_token kp s.auth now (toString u.id)),
           httponly := true, secure := false }]) := by
    simp [login, h]
  refine ⟨by simp [loginEndpoint, hl], by simp [loginEndpoint, hl], ?_, by simp [loginEndpoint, hl], ?_⟩
  · intro a ha
    simp [loginEndpoint, hl] at ha
    rw [← ha]
    exact encodeToken_length_pos _
  · intro c hc
    simp [loginEndpoint, hl] at hc
    simp [hc]

/-- Witness for C1: the spec's seeded scenario
(`doctor@example.com` / `securepassword`) against the seeded store. -/
theorem C1_login_success_witness :
    user_authenticate seedStore seedBody.credentials seedBody.password =
        Except.ok doctorUser ∧
      ((loginEndpoint seedStore kp0 defaultSettings 0 seedBody).status = 200 ∧
        (loginEndpoint seedStore kp0 defaultSettings 0 seedBody).access_token =
          some (encodeToken
            (Security.create_access_token kp0 defaultSettings.auth 0
              (toString doctorUser.id))) ∧
        (∀ a, (loginEndpoint seedStore kp0 defaultSettings 0 seedBody).access_token =
            some a → 0 < a.length) ∧
        (loginEndpoint seedStore kp0 defaultSettings 0 seedBody).cookies.length = 1 ∧
        (∀ c ∈ (loginEndpoint seedStore kp0 defaultSettings 0 seedBody).cookies,
          c.key = REFRESH ∧ c.httponly = true)) :=
  ⟨by decide, C1_login_success seedStore kp0 defaultSettings 0 seedBody doctorUser
    (by decide)⟩

/-- C2: whenever authentication fails, the login endpoint answers 401 with
the uniform message, carries no access token, and sets no cookie. -/
theorem C2_login_failure (store : List UserRecord) (kp : KeyPair) (s : Settings)
    (now : Int) (body : LoginRequestSchema) (e : AuthError)
    (h : user_authenticate store body.credentials body.password = Except.error e) :
    loginEndpoint store kp s now body =
      { status := 401, access_token := none,
        error_message := some invalidCredsMessage, cookies := [] } := by
  have hl : login store kp s now body = .error e := by
    simp [login, h]
  simp [loginEndpoint, hl, surfaceAuthError]

/-- Witness for C2: the spec's wrong-password scenario. -/
theorem C2_login_failure_witness :
    user_authenticate seedStore wrongBody.credentials wrongBody.password =
        Except.error AuthError.invalidCredentials ∧
      loginEndpoint seedStore kp0 defaultSettings 0 wrongBody =
        { status := 401, access_token := none,
          error_message := some invalidCredsMessage, cookies := [] } :=
  ⟨by decide, C2_login_failure seedStore kp0 defaultSettings 0 wrongBody
    AuthError.invalidCredentials (by decide)⟩

/-- C3 counterexample: no settings value makes the seeded login set a cookie
with the Secure attribute — `auth.py` hard-codes `secure=False`, so the flag
is not configurable. -/
theorem C3_secure_counterexample :
    ¬ ∃ s : Settings, ∃ c ∈ (loginEndpoint seedStore kp0 s 0 seedBody).cookies,
        c.secure = true := by
  rintro ⟨s, c, hc, hsec⟩
  have hfalse := login_cookie_secure_false seedStore kp0 s 0 seedBody c hc
  rw [hfalse] at hsec
  exact Bool.false_ne_true hsec

/-- C3 amended: the Secure attribute of every cookie set by login is false
for every store, key pair, settings value, time and request body —
`secure=False` is hard-coded in the source, independently of configuration. -/
theorem C3_secure_not_configurable (store : List UserRecord) (kp : KeyPair)
    (s : Settings) (now : Int) (body : LoginRequestSchema) :
    ∀ c ∈ (loginEndpoint store kp s now body).cookies, c.secure = false :=
  fun c hc => login_cookie_secure_false store kp s now body c hc

/-- Witness for the amended C3: the concrete refresh cookie of the seeded
scenario has `secure = false`. -/
theorem C3_secure_not_configurable_witness :
    seedRefreshCookie ∈ (loginEndpoint seedStore kp0 defaultSettings 0 seedBody).cookies ∧
      seedRefreshCookie.secure = false :=
  ⟨by decide,
    C3_secure_not_configurable seedStore kp0 defaultSettings 0 seedBody
      seedRefreshCookie (by decide)⟩

/-- C4: a login attempt with an invalid secret for an existing user and a
login attempt with a nonexistent identifier produce identical HTTP responses
(same status, message, body and cookies), so the caller cannot tell whether
the identifier exists. -/
theorem C4_enumeration_resistance (store : List UserRecord) (kp : KeyPair)
    (s : Settings) (now : Int) (id1 secret1 id2 secret2 : String) (u : UserRecord)
    (h1 : find_by_username_or_email store id1 = some u)
    (h2 : verifyPassword secret1 u.password_hash = false)
    (h3 : find_by_username_or_email store id2 = none) :
    loginEndpoint store kp s now { credentials := id1, password := secret1 } =
      loginEndpoint store kp s now { credentials := id2, password := secret2 } := by
  have e1 : user_authenticate store id1 secret1 = .error .invalidCredentials := by
    simp [user_authenticate, h1, h2]
  have e2 : user_authenticate store id2 secret2 = .error .userNotFound := by
    simp [user_authenticate, h3]
  have l1 : login store kp s now { credentials := id1, password := secret1 } =
      .error .invalidCredentials := by
    simp [login, e1]
  have l2 : login store kp s now { credentials := id2, password := secret2 } =
      .error .userNotFound := by
    simp [login, e2]
  simp [loginEndpoint, l1, l2, surfaceAuthError]

/-- Witness for C4: wrong password for the seeded user versus an unknown
email, equal responses. -/
theorem C4_enumeration_resistance_witness :
    find_by_username_or_email seedStore "doctor@example.com" = some doctorUser ∧
      verifyPassword "wrongpassword" doctorUser.password_hash = false ∧
      find_by_username_or_email seedStore "ghost@example.com" = none ∧
      loginEndpoint seedStore kp0 defaultSettings 0
          { credentials := "doctor@example.com", password := "wrongpassword" } =
        loginEndpoint seedStore kp0 defaultSettings 0
          { credentials := "ghost@example.com", password := "anything" } :=
  ⟨by decide, by decide, by decide,
    C4_enumeration_resistance seedStore kp0 defaultSettings 0
      "doctor@example.com" "wrongpassword" "ghost@example.com" "anything" doctorUser
      (by decide) (by decide) (by decide)⟩

/-- C8: with no overrides, the default access TTL is 60 minutes and the
default refresh TTL is about 7 days of minutes — within one day of
7 * 24 * 60 = 10080 (the configured default is 10000 minutes) — and the
refresh TTL is strictly larger than the access TTL. -/
theorem C8_default_ttls :
    (AuthSettings.ofEnv emptyEnv).access_token_expire_minutes = 60 ∧
      ((AuthSettings.ofEnv emptyEnv).refresh_token_expire_minutes - 7 * 24 * 60).natAbs ≤
        1440 ∧
      (AuthSettings.ofEnv emptyEnv).access_token_expire_minutes <
        (AuthSettings.ofEnv emptyEnv).refresh_token_expire_minutes := by
  refine ⟨rfl, by decide, by decide⟩

/-- C9: `get_settings` constructs the settings exactly once per process —
every later call returns the very value of the first call and leaves the
cached state untouched. -/
theorem C9_settings_cached_once (env : Env) (n : Nat) :
    get_settings_calls env n = get_settings_calls env 0 := by
  induction n with
  | zero => rfl
  | succ n ih =>
      have hstep : get_settings_calls env (n + 1) =
          get_settings env (get_settings_calls env n).2 := rfl
      rw [hstep, ih]
      rfl

/-- C10: the asynchronous DSN targets the test database exactly when
`pytest_debug` is set while the synchronous DSN always targets the
production database, so the two DSNs name the same database precisely when
`pytest_debug` is off or the two database names coincide. -/
theorem C10_dsn_database_split (e : Env) :
    ((DatabaseSettings.ofEnv e).pytest_debug = true →
        Option.map URL.database (DatabaseSettings.ofEnv e).async_database_url =
            some (DatabaseSettings.ofEnv e).pg_test_database ∧
          Option.map URL.database (DatabaseSettings.ofEnv e).sync_database_url =
            some (DatabaseSettings.ofEnv e).pg_database) ∧
      (Option.map URL.database (DatabaseSettings.ofEnv e).async_database_url =
          Option.map URL.database (DatabaseSettings.ofEnv e).sync_database_url ↔
        (DatabaseSettings.ofEnv e).pytest_debug = false ∨
          (DatabaseSettings.ofEnv e).pg_test_database =
            (DatabaseSettings.ofEnv e).pg_database) := by
  cases hpd : e.pytest_debug.getD false with
  | true =>
      constructor
      · intro _
        constructor
        · simp [DatabaseSettings.ofEnv, build_db_dsn, hpd]
        · simp [DatabaseSettings.ofEnv, build_db_dsn, hpd]
      · simp [DatabaseSettings.ofEnv, build_db_dsn, hpd]
  | false =>
      constructor
      · intro hcontra
        simp [DatabaseSettings.ofEnv, hpd] at hcontra
      · simp [DatabaseSettings.ofEnv, build_db_dsn, hpd]

/-- Witness for C10: with `PYTEST_DEBUG=true` and no other overrides, the
asynchronous DSN targets `doctor_test` while the synchronous DSN targets
`postgres`. -/
theorem C10_dsn_database_split_witness :
    (DatabaseSettings.ofEnv pytestEnv).pytest_debug = true ∧
      (Option.map URL.database (DatabaseSettings.ofEnv pytestEnv).async_database_url =
          some (DatabaseSettings.ofEnv pytestEnv).pg_test_database ∧
        Option.map URL.database (DatabaseSettings.ofEnv pytestEnv).sync_database_url =
          some (DatabaseSettings.ofEnv pytestEnv).pg_database) :=
  ⟨by decide, (C10_dsn_database_split pytestEnv).1 (by decide)⟩
